import Mathlib

/-
Verification of the core computation pipeline of the "Rapprochement CA /
Achats / Heures – Bâtiment" application (src/app.py).

The embedding models a pandas DataFrame as an ordered association list of
columns (column name ↦ list of cells).  A cell is a rational number, a text
value, or NaN (`Cell.na`).  Real numbers are modelled by ℚ: every arithmetic
operation that the program performs (sums, products, differences, divisions)
is exact on the inputs of interest, so ℚ faithfully represents the float
computations the claims are about.  Python scalar values that may be None,
a number, or a string are modelled by `PyVal`, with Python truthiness
(`pyOr`, modelling `x or 0.0`) and `float()` conversion (`pyFloat`)
modelled explicitly; fallible code returns `Except`.
-/

/-- Decidable equality of `Except` values, for evaluating the fallible
operations on concrete inputs. -/
instance {ε α : Type} [DecidableEq ε] [DecidableEq α] : DecidableEq (Except ε α) := fun x y =>
  match x, y with
  | .ok a, .ok b =>
    if h : a = b then .isTrue (h ▸ rfl) else .isFalse (fun hh => h (Except.ok.inj hh))
  | .error a, .error b =>
    if h : a = b then .isTrue (h ▸ rfl) else .isFalse (fun hh => h (Except.error.inj hh))
  | .ok _, .error _ => .isFalse (fun hh => Except.noConfusion hh)
  | .error _, .ok _ => .isFalse (fun hh => Except.noConfusion hh)

/-- Value held in one cell of a raw hours table: a (rational-valued) number,
a text value, or a missing value (NaN). -/
inductive Cell where
  | num (q : ℚ)
  | text (s : String)
  | na
deriving DecidableEq

/-- A DataFrame: ordered list of (column name, cell values of the column). -/
abbrev Table := List (String × List Cell)

/-- First-match association-list lookup. -/
def slookup {α : Type} : List (String × α) → String → Option α
  | [], _ => Option.none
  | (k, v) :: rest, key => if k = key then some v else slookup rest key

/-- Cells of column `n` of table `t` (empty list when the column is absent). -/
def colCells (t : Table) (n : String) : List Cell := (slookup t n).getD []

/-- Whether column `n` is present in `t` (pandas `col in df.columns`). -/
def hasCol (t : Table) (n : String) : Bool := (slookup t n).isSome

/-- Number of rows of `t` (length of the first column; 0 when no columns). -/
def nrows : Table → Nat
  | [] => 0
  | (_, v) :: _ => v.length

/-- Pandas `df.empty`: true when the table has no columns or no rows. -/
def tableEmpty : Table → Bool
  | [] => true
  | (_, v) :: _ => v.isEmpty

/-- Pandas column assignment `df[n] = v`: replace the column in place when it
exists, append it at the end otherwise. -/
def setCol : Table → String → List Cell → Table
  | [], n, v => [(n, v)]
  | (k, w) :: rest, n, v => if k = n then (n, v) :: rest else (k, w) :: setCol rest n v

/-- Pandas column selection `df[[names]]`: a new table with exactly the given
columns, in the given order. -/
def selectCols (t : Table) (ns : List String) : Table := ns.map (fun n => (n, colCells t n))

/-- Leading/trailing-whitespace strip, modelling Python `str(c).strip()`
(structurally recursive so that concrete instances evaluate). -/
def strStrip (s : String) : String :=
  ⟨((s.data.dropWhile Char.isWhitespace).reverse.dropWhile Char.isWhitespace).reverse⟩

/-- Parse a nonempty all-digit character list as a natural number. -/
def parseNatDigits (cs : List Char) : Option Nat :=
  if cs.isEmpty then Option.none
  else
    cs.foldl
      (fun acc c =>
        match acc with
        | Option.none => Option.none
        | some n => if c.isDigit then some (n * 10 + (c.toNat - 48)) else Option.none)
      (some 0)

/-- Parse an unsigned decimal literal (digits with an optional single decimal
point, as in `140`, `0.75`, `1.`, `.5`). -/
def parseUnsigned (cs : List Char) : Option ℚ :=
  let ip := cs.takeWhile (fun c => c != '.')
  match cs.dropWhile (fun c => c != '.') with
  | [] => (parseNatDigits ip).map (fun n => (n : ℚ))
  | _ :: frac =>
    if ip.isEmpty && frac.isEmpty then Option.none
    else if ip.isEmpty then (parseNatDigits frac).map (fun f => (f : ℚ) / 10 ^ frac.length)
    else if frac.isEmpty then (parseNatDigits ip).map (fun n => (n : ℚ))
    else
      match parseNatDigits ip, parseNatDigits frac with
      | some n, some f => some ((n : ℚ) + (f : ℚ) / 10 ^ frac.length)
      | _, _ => Option.none

/-- The fragment of Python `float(str)` / `pandas.to_numeric` string parsing
relevant here: optional surrounding whitespace, optional sign, decimal
digits with an optional fractional part; anything else is unparseable. -/
def parseFloat? (s : String) : Option ℚ :=
  match (strStrip s).data with
  | '-' :: cs => (parseUnsigned cs).map Neg.neg
  | '+' :: cs => parseUnsigned cs
  | cs => parseUnsigned cs

/-- One-cell numeric coercion, modelling
`pd.to_numeric(col, errors="coerce").fillna(0.0)`: numbers pass through,
numeric strings parse, everything else becomes 0.0. -/
def cellToQ : Cell → ℚ
  | .num q => q
  | .text s => (parseFloat? s).getD 0
  | .na => 0

/-- One-cell text coercion, modelling `col.astype(str)` (NaN stringifies to
"nan", numbers to their decimal representation). -/
def cellToStr : Cell → String
  | .num q => toString q
  | .text s => s
  | .na => "nan"

/-- Text coercion wrapped as a cell (app.py line 49). -/
def strCoerce (c : Cell) : Cell := .text (cellToStr c)

/-- Numeric coercion wrapped as a cell (app.py lines 50-51). -/
def numCoerce (c : Cell) : Cell := .num (cellToQ c)

/-- The placeholder table substituted for an absent/empty input
(app.py line 42). -/
def defaultHoursDf : Table :=
  [("Personne", [Cell.text ""]), ("Heures", [Cell.num 0]), ("Coef_production", [Cell.num 0])]

/-- One step of the loop at app.py lines 45-47: add the column with a
broadcast default when it is absent. -/
def ensureCol (t : Table) (n : String) (d : Cell) : Table :=
  if hasCol t n then t else setCol t n (List.replicate (nrows t) d)

/-- The loop at app.py lines 45-47 over the three required columns. -/
def ensureRequiredCols (t : Table) : Table :=
  ensureCol (ensureCol (ensureCol t "Personne" (Cell.text "")) "Heures" (Cell.num 0))
    "Coef_production" (Cell.num 0)

/-- The three coercion assignments at app.py lines 49-51. -/
def coerceCols (t : Table) : Table :=
  let t1 := setCol t "Personne" ((colCells t "Personne").map strCoerce)
  let t2 := setCol t1 "Heures" ((colCells t1 "Heures").map numCoerce)
  setCol t2 "Coef_production" ((colCells t2 "Coef_production").map numCoerce)

/-- The derived-column assignment at app.py line 53:
`out["Heures_facturables"] = out["Heures"] * out["Coef_production"]`. -/
def addBillableCol (t : Table) : Table :=
  setCol t "Heures_facturables"
    (List.zipWith (fun a b => Cell.num (cellToQ a * cellToQ b))
      (colCells t "Heures") (colCells t "Coef_production"))

/-- The four output columns selected at app.py line 54. -/
def NORM_COLS : List String := ["Personne", "Heures", "Coef_production", "Heures_facturables"]

/-- The None/empty guard at app.py lines 41-42. -/
def resolveHoursInput : Option Table → Table
  | Option.none => defaultHoursDf
  | some t => if tableEmpty t then defaultHoursDf else t

/-- Body of `normalize_hours_df` after the None/empty guard
(app.py lines 44-54). -/
def normalize_body (df : Table) : Table :=
  selectCols (addBillableCol (coerceCols (ensureRequiredCols df))) NORM_COLS

/-- `normalize_hours_df` (app.py lines 39-54). -/
def normalize_hours_df (df : Option Table) : Table := normalize_body (resolveHoursInput df)

/-- A Python scalar as received by `compute_year`: None, a number, or a
string. -/
inductive PyVal where
  | none
  | num (q : ℚ)
  | str (s : String)
deriving DecidableEq

/-- Python truthiness for the values of `PyVal`. -/
def pyTruthy : PyVal → Bool
  | .none => false
  | .num q => q != 0
  | .str s => s != ""

/-- Python `v or d` with a float literal default. -/
def pyOr (v : PyVal) (d : ℚ) : PyVal := if pyTruthy v then v else .num d

/-- Python `float(v)`: numbers pass through, numeric strings parse, a
non-numeric string or None raises. -/
def pyFloat : PyVal → Except String ℚ
  | .num q => .ok q
  | .none => .error "float() argument must be a string or a real number, not NoneType"
  | .str s =>
    match parseFloat? s with
    | some q => .ok q
    | Option.none => .error ("could not convert string to float: " ++ s)

/-- `safe_div` (app.py lines 36-37): with rational arguments, `b` is never
None, so the guard is `b = 0`. -/
def safe_div (a b : ℚ) : ℚ := if b = 0 then 0 else a / b

/-- Sum of a numeric column (`float(dfh[n].sum())`, app.py lines 66-67). -/
def colSum (t : Table) (n : String) : ℚ := ((colCells t n).map cellToQ).sum

/-- The dict returned by `compute_year` (app.py lines 76-87). -/
structure YearRes where
  marge : ℚ
  tx_marge : ℚ
  dfh : Table
  heures : ℚ
  heures_fact : ℚ
  ca_theo_achats : ℚ
  ca_theo_heures : ℚ
  ca_theo_total : ℚ
  ecart : ℚ
  ecart_pct : ℚ
deriving DecidableEq

/-- The arithmetic part of `compute_year` (app.py lines 62-87), applied to
the already-coerced scalars and the normalized hours table. -/
def mkYearRes (ca achats : ℚ) (dfh : Table) (taux_horaire coef_refact : ℚ) : YearRes :=
  let marge := ca - achats
  let tx_marge := if ca = 0 then 0 else safe_div marge ca
  let heures := colSum dfh "Heures"
  let heures_fact := colSum dfh "Heures_facturables"
  let ca_theo_achats := achats * coef_refact
  let ca_theo_heures := heures_fact * taux_horaire
  let ca_theo_total := ca_theo_achats + ca_theo_heures
  let ecart := ca - ca_theo_total
  let ecart_pct := if ca = 0 then 0 else safe_div ecart ca
  { marge := marge, tx_marge := tx_marge, dfh := dfh, heures := heures,
    heures_fact := heures_fact, ca_theo_achats := ca_theo_achats,
    ca_theo_heures := ca_theo_heures, ca_theo_total := ca_theo_total,
    ecart := ecart, ecart_pct := ecart_pct }

/-- `compute_year` (app.py lines 56-87): the four `float(x or 0.0)` coercions
followed by the derived metrics over the normalized hours table. -/
def compute_year (ca achats : PyVal) (df_hours : Option Table)
    (taux_horaire coef_refact : PyVal) : Except String YearRes := do
  let ca ← pyFloat (pyOr ca 0)
  let achats ← pyFloat (pyOr achats 0)
  let taux_horaire ← pyFloat (pyOr taux_horaire 0)
  let coef_refact ← pyFloat (pyOr coef_refact 0)
  pure (mkYearRes ca achats (normalize_hours_df df_hours) taux_horaire coef_refact)

/-- `REQUIRED_COLS` (app.py line 92). -/
def REQUIRED_COLS : List String := ["Personne", "Heures", "Coef_production"]

/-- An uploaded workbook: ordered list of (sheet name, sheet table). -/
abbrev Workbook := List (String × Table)

/-- The two failure conditions of the import routine: the `ValueError` raised
at app.py line 132 (sheet "N" missing) and the `ValueError` raised at
app.py line 124 (required columns missing from a sheet, listed sorted). -/
inductive ImportError where
  | sheetNRequired
  | missingColumns (sheet : String) (missing : List String)
deriving DecidableEq

/-- Column-name cleanup at app.py line 121:
`df.columns = [str(c).strip() for c in df.columns]`. -/
def stripColNames (t : Table) : Table := t.map (fun p => (strStrip p.1, p.2))

/-- Insertion into a sorted list of strings. -/
def insertSorted (s : String) : List String → List String
  | [] => [s]
  | t :: ts => if s ≤ t then s :: t :: ts else t :: insertSorted s ts

/-- Sorted list of strings (Python `sorted(...)` on the missing-column set). -/
def sortStrings : List String → List String
  | [] => []
  | s :: ss => insertSorted s (sortStrings ss)

/-- `read_hours_sheet` (app.py lines 117-125): absent sheet returns no data;
a present sheet must contain the three required columns, otherwise the
error names the (sorted) missing columns. -/
def read_hours_sheet (xls : Workbook) (sheet : String) : Except ImportError (Option Table) :=
  match slookup xls sheet with
  | Option.none => .ok Option.none
  | some df =>
    let df := stripColNames df
    let missing := sortStrings (REQUIRED_COLS.filter (fun c => ! hasCol df c))
    if missing.isEmpty then .ok (some (selectCols df REQUIRED_COLS))
    else .error (.missingColumns sheet missing)

/-- `load_hours_from_excel` (app.py lines 127-134): sheet "N" is required,
sheet "N-1" is optional. -/
def load_hours_from_excel (xls : Workbook) : Except ImportError (Table × Option Table) := do
  let dfN? ← read_hours_sheet xls "N"
  match dfN? with
  | Option.none => .error .sheetNRequired
  | some dfN => do
    let dfN1? ← read_hours_sheet xls "N-1"
    pure (dfN, dfN1?)

/-- The per-session hours tables (`st.session_state["hours_n"]` and
`st.session_state["hours_n1"]`). -/
structure Session where
  hours_n : Table
  hours_n1 : Table
deriving DecidableEq

/-- The "Charger depuis l'Excel" button handler (app.py lines 449-457): on
success both tables are replaced (the N-1 table only when sheet "N-1" was
present); on failure an error message is shown and the session state is
left untouched. -/
def on_load_excel_click (sess : Session) (uploaded : Workbook) : Session :=
  match load_hours_from_excel uploaded with
  | .ok (df_n, df_n1) =>
    let sess1 := { sess with hours_n := df_n }
    match df_n1 with
    | some d => { sess1 with hours_n1 := d }
    | Option.none => sess1
  | .error _ => sess

/-- The year-N block of the summary payload (app.py lines 147-153). -/
structure YearBlockN where
  ca : ℚ
  achats : ℚ
  taux_horaire : ℚ
  coef_refact : ℚ
  res : YearRes
deriving DecidableEq

/-- The year-(N-1) block of the summary payload (app.py lines 158-164); its
scalars are the possibly-None values passed by the caller. -/
structure YearBlockPrev where
  ca : Option ℚ
  achats : Option ℚ
  taux_horaire : Option ℚ
  coef_refact : Option ℚ
  res : YearRes
deriving DecidableEq

/-- The payload dict built at app.py lines 145-165. -/
structure SummaryPayload where
  date : String
  yearN : YearBlockN
  yearPrev : Option YearBlockPrev
  use_n1 : Bool
deriving DecidableEq

/-- `build_summary_payload` (app.py lines 139-165).  `dt.date.today()` is
modelled as the explicit `today` argument. -/
def build_summary_payload (today : String) (use_n1 : Bool)
    (ca_n achats_n taux_horaire_n coef_refact_n : ℚ) (res_n : YearRes)
    (ca_n1 achats_n1 taux_horaire_n1 coef_refact_n1 : Option ℚ)
    (res_n1 : Option YearRes) : SummaryPayload :=
  let use := use_n1 && res_n1.isSome
  { date := today
    yearN := { ca := ca_n, achats := achats_n, taux_horaire := taux_horaire_n,
               coef_refact := coef_refact_n, res := res_n }
    yearPrev :=
      match res_n1 with
      | some r =>
        if use_n1 then
          some { ca := ca_n1, achats := achats_n1, taux_horaire := taux_horaire_n1,
                 coef_refact := coef_refact_n1, res := r }
        else Option.none
      | Option.none => Option.none
    use_n1 := use }

/-- Heap of DataFrame objects, for the mutation/frame claims: a Python
variable holding a DataFrame is an index into the heap, every pandas
in-place write (`out[col] = ...`) is a `heapSet` on the object it targets,
and `df.copy()` allocates a fresh object. -/
abbrev Heap := List Table

/-- Value of the object at reference `r`. -/
def heapGet (h : Heap) (r : Nat) : Table := h.getD r []

/-- Overwrite the object at reference `r`. -/
def heapSet (h : Heap) (r : Nat) (t : Table) : Heap := h.set r t

/-- `normalize_hours_df` run against the heap: the None/empty guard rebinds
the local name only, `out = df.copy()` allocates a fresh object, and all
column writes (lines 45-53) target that fresh object; line 54 returns a
new selection. -/
def normalize_hours_df_onHeap (h : Heap) (dfRef : Nat) : Heap × Table :=
  let dfv := resolveHoursInput (some (heapGet h dfRef))
  let outRef := h.length
  let h1 := h ++ [dfv]
  let h2 := heapSet h1 outRef (ensureRequiredCols (heapGet h1 outRef))
  let h3 := heapSet h2 outRef (coerceCols (heapGet h2 outRef))
  let h4 := heapSet h3 outRef (addBillableCol (heapGet h3 outRef))
  (h4, selectCols (heapGet h4 outRef) NORM_COLS)

/-- Numeric view of a column: its cells read through the numeric coercion
(on normalized tables every numeric cell is already a `Cell.num`). -/
def colQ (t : Table) (n : String) : List ℚ := (colCells t n).map cellToQ

/-- The normalized form of an empty/absent hours table: one placeholder row. -/
def normalizedPlaceholder : Table :=
  [("Personne", [Cell.text ""]), ("Heures", [Cell.num 0]),
   ("Coef_production", [Cell.num 0]), ("Heures_facturables", [Cell.num 0])]

/-- The hours table of spec Scenario A: rows (140, 0.75) and (152, 0.70). -/
def scenarioATable : Table :=
  [("Personne", [Cell.text "Ouvrier 1", Cell.text "Ouvrier 2"]),
   ("Heures", [Cell.num 140, Cell.num 152]),
   ("Coef_production", [Cell.num 0.75, Cell.num 0.70])]

/-- Scenario A's table after normalization. -/
def scenarioANorm : Table :=
  [("Personne", [Cell.text "Ouvrier 1", Cell.text "Ouvrier 2"]),
   ("Heures", [Cell.num 140, Cell.num 152]),
   ("Coef_production", [Cell.num 0.75, Cell.num 0.70]),
   ("Heures_facturables", [Cell.num 105, Cell.num 106.4])]

/-- Scalar inputs for which `float(x or 0.0)` cannot raise: None, numbers,
and the empty string (the falsy values fall back to 0.0). -/
def scalarSafe : PyVal → Bool
  | .none => true
  | .num _ => true
  | .str s => s == ""

/-- The value `float(x or 0.0)` produces on a `scalarSafe` input. -/
def scalarCoerced : PyVal → ℚ
  | .num q => q
  | _ => 0

/-- `compute_year` run against the heap: the scalar coercions (lines 57-60)
either raise — leaving the heap untouched — or succeed, after which the
only table operation is the `normalize_hours_df` call at line 65. -/
def compute_year_onHeap (h : Heap) (ca achats : PyVal) (dfRef : Nat)
    (taux_horaire coef_refact : PyVal) : Heap × Except String YearRes :=
  match pyFloat (pyOr ca 0), pyFloat (pyOr achats 0),
      pyFloat (pyOr taux_horaire 0), pyFloat (pyOr coef_refact 0) with
  | .ok ca, .ok achats, .ok taux, .ok coef =>
    let p := normalize_hours_df_onHeap h dfRef
    (p.1, .ok (mkYearRes ca achats p.2 taux coef))
  | .error e, _, _, _ => (h, .error e)
  | _, .error e, _, _ => (h, .error e)
  | _, _, .error e, _ => (h, .error e)
  | _, _, _, .error e => (h, .error e)

/-- Lookup after a column write at the written name. -/
theorem slookup_setCol_self (t : Table) (n : String) (v : List Cell) :
    slookup (setCol t n v) n = some v := by
  induction t with
  | nil => simp [setCol, slookup]
  | cons p rest ih =>
    obtain ⟨k, w⟩ := p
    by_cases h : k = n
    · simp [setCol, h, slookup]
    · simp [setCol, h, slookup, ih]

/-- Lookup after a column write at a different name. -/
theorem slookup_setCol_ne (t : Table) (n m : String) (v : List Cell) (h : m ≠ n) :
    slookup (setCol t n v) m = slookup t m := by
  have hnm : ¬ n = m := fun hh => h hh.symm
  induction t with
  | nil => simp [setCol, slookup, hnm]
  | cons p rest ih =>
    obtain ⟨k, w⟩ := p
    by_cases hk : k = n
    · subst hk
      simp [setCol, slookup, hnm]
    · simp [setCol, hk, slookup, ih]

/-- Cells of the written column. -/
theorem colCells_setCol_self (t : Table) (n : String) (v : List Cell) :
    colCells (setCol t n v) n = v := by
  simp [colCells, slookup_setCol_self]

/-- Cells of an untouched column after a write. -/
theorem colCells_setCol_ne (t : Table) (n m : String) (v : List Cell) (h : m ≠ n) :
    colCells (setCol t n v) m = colCells t m := by
  simp [colCells, slookup_setCol_ne t n m v h]

/-- Column selection preserves the cells of every selected column. -/
theorem colCells_selectCols_mem (t : Table) (ns : List String) (m : String) (h : m ∈ ns) :
    colCells (selectCols t ns) m = colCells t m := by
  induction ns with
  | nil => cases h
  | cons a as ih =>
    by_cases ha : a = m
    · subst ha
      simp [selectCols, colCells, slookup]
    · rcases List.mem_cons.mp h with h1 | h2
      · exact absurd h1.symm ha
      · simpa [selectCols, colCells, slookup, ha] using ih h2

/-- The `Heures` column after the three coercion writes. -/
theorem colCells_coerceCols_heures (t : Table) :
    colCells (coerceCols t) "Heures" = (colCells t "Heures").map numCoerce := by
  simp only [coerceCols]
  rw [colCells_setCol_ne _ _ _ _ (by decide : ("Heures" : String) ≠ "Coef_production"),
    colCells_setCol_self,
    colCells_setCol_ne _ _ _ _ (by decide : ("Heures" : String) ≠ "Personne")]

/-- The `Coef_production` column after the three coercion writes. -/
theorem colCells_coerceCols_coef (t : Table) :
    colCells (coerceCols t) "Coef_production" =
      (colCells t "Coef_production").map numCoerce := by
  simp only [coerceCols]
  rw [colCells_setCol_self,
    colCells_setCol_ne _ _ _ _ (by decide : ("Coef_production" : String) ≠ "Heures"),
    colCells_setCol_ne _ _ _ _ (by decide : ("Coef_production" : String) ≠ "Personne")]

/-- The derived-column write does not change the other columns. -/
theorem colCells_addBillableCol_ne (t : Table) (m : String) (h : m ≠ "Heures_facturables") :
    colCells (addBillableCol t) m = colCells t m :=
  colCells_setCol_ne t _ m _ h

/-- The derived column is the elementwise product of the two numeric columns. -/
theorem colCells_addBillableCol_self (t : Table) :
    colCells (addBillableCol t) "Heures_facturables" =
      List.zipWith (fun a b => Cell.num (cellToQ a * cellToQ b))
        (colCells t "Heures") (colCells t "Coef_production") :=
  colCells_setCol_self t _ _

/-- Numeric coercion leaves the numeric view of a cell unchanged. -/
theorem cellToQ_numCoerce (c : Cell) : cellToQ (numCoerce c) = cellToQ c := rfl

/-- The `Heures` column of a normalized table is the numeric coercion of the
prepared input column. -/
theorem colCells_normalize_body_heures (df : Table) :
    colCells (normalize_body df) "Heures" =
      (colCells (ensureRequiredCols df) "Heures").map numCoerce := by
  unfold normalize_body
  rw [colCells_selectCols_mem _ _ _ (by decide), colCells_addBillableCol_ne _ _ (by decide),
    colCells_coerceCols_heures]

/-- The `Coef_production` column of a normalized table is the numeric
coercion of the prepared input column. -/
theorem colCells_normalize_body_coef (df : Table) :
    colCells (normalize_body df) "Coef_production" =
      (colCells (ensureRequiredCols df) "Coef_production").map numCoerce := by
  unfold normalize_body
  rw [colCells_selectCols_mem _ _ _ (by decide), colCells_addBillableCol_ne _ _ (by decide),
    colCells_coerceCols_coef]

/-- The `Heures_facturables` column of a normalized table is the elementwise
product of the two coerced numeric columns. -/
theorem colCells_normalize_body_fact (df : Table) :
    colCells (normalize_body df) "Heures_facturables" =
      List.zipWith (fun a b => Cell.num (cellToQ a * cellToQ b))
        (colCells (coerceCols (ensureRequiredCols df)) "Heures")
        (colCells (coerceCols (ensureRequiredCols df)) "Coef_production") := by
  unfold normalize_body
  rw [colCells_selectCols_mem _ _ _ (by decide), colCells_addBillableCol_self]

/-- Numeric view of a product column. -/
theorem mapQ_zip_product (xs ys : List Cell) :
    (List.zipWith (fun a b => Cell.num (cellToQ a * cellToQ b)) xs ys).map cellToQ =
      List.zipWith (fun a b => a * b) (xs.map cellToQ) (ys.map cellToQ) := by
  simp [List.map_zipWith, List.zipWith_map, cellToQ]

/-- Coercion of a numeric scalar input: `float(q or 0.0)` returns `q`. -/
theorem pyFloat_pyOr_num (q : ℚ) : pyFloat (pyOr (PyVal.num q) 0) = .ok q := by
  by_cases h : q = 0
  · subst h; simp [pyOr, pyTruthy, pyFloat]
  · simp [pyOr, pyTruthy, pyFloat, h]

/-- On numeric scalar inputs `compute_year` succeeds and returns the metrics
computed from the normalized hours table. -/
theorem compute_year_ok_num (ca achats : ℚ) (df : Option Table) (taux coef : ℚ) :
    compute_year (.num ca) (.num achats) df (.num taux) (.num coef) =
      .ok (mkYearRes ca achats (normalize_hours_df df) taux coef) := by
  simp only [compute_year, pyFloat_pyOr_num]
  rfl

/-- Normalization of the Scenario A hours table. -/
theorem normalize_scenarioA : normalize_hours_df (some scenarioATable) = scenarioANorm := by
  simp +decide [normalize_hours_df, resolveHoursInput, normalize_body, scenarioATable,
    ensureRequiredCols, ensureCol, hasCol, slookup, setCol, coerceCols, addBillableCol,
    selectCols, colCells, numCoerce, strCoerce, cellToStr, cellToQ, NORM_COLS,
    scenarioANorm, nrows, tableEmpty]
  norm_num

/-- Normalization of an empty table body yields the placeholder row. -/
theorem normalize_body_default : normalize_body defaultHoursDf = normalizedPlaceholder := by
  simp +decide [normalize_body, defaultHoursDf, ensureRequiredCols, ensureCol, hasCol,
    slookup, setCol, coerceCols, addBillableCol, selectCols, colCells, numCoerce,
    strCoerce, cellToStr, cellToQ, NORM_COLS, normalizedPlaceholder, nrows]

/-- Membership in an insertion-sorted list. -/
theorem mem_insertSorted (s a : String) (l : List String) :
    a ∈ insertSorted s l ↔ a = s ∨ a ∈ l := by
  induction l with
  | nil => simp [insertSorted]
  | cons t ts ih =>
    by_cases h : s ≤ t
    · simp [insertSorted, h]
    · simp only [insertSorted, if_neg h, List.mem_cons, ih]
      tauto

/-- Sorting a list of strings does not change its members. -/
theorem mem_sortStrings (a : String) (l : List String) : a ∈ sortStrings l ↔ a ∈ l := by
  induction l with
  | nil => simp [sortStrings]
  | cons s ss ih => simp [sortStrings, mem_insertSorted, ih]

/-- C1: `compute_year` satisfies the YearResult equations — for every numeric
`YearInputs`, margin = revenue - purchases, the theoretical revenues are
purchases*markup and billable-hours*rate, the theoretical total is their sum
and the variance is revenue minus that total; on the Scenario A inputs
(revenue 300000, purchases 150000, rows (140,0.75) and (152,0.70), rate 55,
markup 1.15) it returns margin 150000, marginRate 0.5, billable hours 211.4,
theoretical revenues 172500/11627/184127 and variance 115873. -/
theorem compute_year_satisfies_year_result_equations :
    (∀ (ca achats taux coef : ℚ) (df : Option Table),
      compute_year (.num ca) (.num achats) df (.num taux) (.num coef) =
        .ok { marge := ca - achats,
              tx_marge := if ca = 0 then 0 else (ca - achats) / ca,
              dfh := normalize_hours_df df,
              heures := colSum (normalize_hours_df df) "Heures",
              heures_fact := colSum (normalize_hours_df df) "Heures_facturables",
              ca_theo_achats := achats * coef,
              ca_theo_heures := colSum (normalize_hours_df df) "Heures_facturables" * taux,
              ca_theo_total :=
                achats * coef + colSum (normalize_hours_df df) "Heures_facturables" * taux,
              ecart :=
                ca - (achats * coef +
                  colSum (normalize_hours_df df) "Heures_facturables" * taux),
              ecart_pct := if ca = 0 then 0
                else (ca - (achats * coef +
                  colSum (normalize_hours_df df) "Heures_facturables" * taux)) / ca })
    ∧ compute_year (.num 300000) (.num 150000) (some scenarioATable) (.num 55) (.num 1.15) =
        .ok { marge := 150000, tx_marge := 1/2, dfh := scenarioANorm, heures := 292,
              heures_fact := 211.4, ca_theo_achats := 172500, ca_theo_heures := 11627,
              ca_theo_total := 184127, ecart := 115873, ecart_pct := 115873/300000 } := by
  constructor
  · intro ca achats taux coef df
    rw [compute_year_ok_num]
    by_cases hca : ca = 0 <;> simp [mkYearRes, safe_div, hca]
  · rw [compute_year_ok_num, normalize_scenarioA]
    simp +decide [mkYearRes, safe_div, colSum, colCells, slookup, scenarioANorm, cellToQ]
    norm_num

/-- C2: when revenue is exactly zero, `compute_year` succeeds (no error,
no undefined value, no infinity) with marginRate and varianceRate both 0.0,
while the margin itself is not zero-guarded; in particular with revenue 0
and purchases 1000 it returns margin -1000 and both rates 0.0. -/
theorem compute_year_zero_revenue_zero_rates :
    (∀ (achats taux coef : ℚ) (df : Option Table), ∃ r,
        compute_year (.num 0) (.num achats) df (.num taux) (.num coef) = .ok r ∧
        r.tx_marge = 0 ∧ r.ecart_pct = 0 ∧ r.marge = 0 - achats)
    ∧ (∃ r, compute_year (.num 0) (.num 1000) Option.none (.num 7) (.num 2) = .ok r ∧
        r.marge = -1000 ∧ r.tx_marge = 0 ∧ r.ecart_pct = 0) := by
  constructor
  · intro achats taux coef df
    exact ⟨_, compute_year_ok_num 0 achats df taux coef, by simp [mkYearRes],
      by simp [mkYearRes], by simp [mkYearRes]⟩
  · exact ⟨_, compute_year_ok_num 0 1000 Option.none 7 2, by norm_num [mkYearRes],
      by simp [mkYearRes], by simp [mkYearRes]⟩

/-- C3: in every table returned by the normalizer, the `Heures_facturables`
column is exactly the elementwise product of the `Heures` and
`Coef_production` columns; and the table stored inside every `YearRes`
produced by `compute_year` is such a normalized table. -/
theorem normalize_billable_equals_hours_times_coef :
    (∀ df : Option Table,
      colQ (normalize_hours_df df) "Heures_facturables" =
        List.zipWith (fun a b => a * b) (colQ (normalize_hours_df df) "Heures")
          (colQ (normalize_hours_df df) "Coef_production"))
    ∧ (∀ (ca achats taux coef : ℚ) (df : Option Table), ∃ r,
        compute_year (.num ca) (.num achats) df (.num taux) (.num coef) = .ok r ∧
        r.dfh = normalize_hours_df df) := by
  constructor
  · intro df
    unfold normalize_hours_df
    simp only [colQ, colCells_normalize_body_fact, colCells_normalize_body_heures,
      colCells_normalize_body_coef, colCells_coerceCols_heures, colCells_coerceCols_coef]
    exact mapQ_zip_product _ _
  · intro ca achats taux coef df
    exact ⟨_, compute_year_ok_num ca achats df taux coef, rfl⟩

/-- C4: the normalizer turns an absent table and any empty table into the
same single placeholder row (person "", hours 0.0, coefficient 0.0, billable
hours 0.0) — never an empty table. -/
theorem normalize_empty_yields_placeholder_row :
    normalize_hours_df Option.none = normalizedPlaceholder
    ∧ ∀ t : Table, tableEmpty t = true → normalize_hours_df (some t) = normalizedPlaceholder := by
  constructor
  · simpa [normalize_hours_df, resolveHoursInput] using normalize_body_default
  · intro t ht
    simpa [normalize_hours_df, resolveHoursInput, ht] using normalize_body_default

/-- Witness for C4: the concrete empty table is empty and normalizes to the
placeholder row. -/
theorem normalize_empty_yields_placeholder_row_witness :
    tableEmpty [] = true ∧ normalize_hours_df (some []) = normalizedPlaceholder :=
  ⟨rfl, normalize_empty_yields_placeholder_row.2 [] rfl⟩

/-- C6 counterexample: `compute_year` coerces its scalars with
`float(x or 0.0)`, so a non-empty non-numeric string input raises a
ValueError instead of falling back to 0.0 — the function can fail. -/
theorem compute_year_nonnumeric_string_raises :
    compute_year (.str "abc") (.num 150000) Option.none (.num 55) (.num 1.15)
      = .error "could not convert string to float: abc" := by decide

/-- C6 amended: the `float(x or 0.0)` coercion gives the 0.0 fallback
exactly to the falsy scalar inputs (None, zero, the empty string) and passes
numbers through; for all such inputs `compute_year` cannot fail, but a
non-empty non-numeric string raises. -/
theorem compute_year_scalar_coercion_amended :
    (∀ v : PyVal, scalarSafe v = true → pyFloat (pyOr v 0) = .ok (scalarCoerced v))
    ∧ (∀ (a b c d : PyVal) (df : Option Table),
        scalarSafe a = true → scalarSafe b = true → scalarSafe c = true →
        scalarSafe d = true →
        compute_year a b df c d =
          .ok (mkYearRes (scalarCoerced a) (scalarCoerced b) (normalize_hours_df df)
            (scalarCoerced c) (scalarCoerced d))) := by
  have hv : ∀ v : PyVal, scalarSafe v = true → pyFloat (pyOr v 0) = .ok (scalarCoerced v) := by
    intro v hvs
    cases v with
    | none => simp [pyOr, pyTruthy, pyFloat, scalarCoerced]
    | num q =>
      by_cases h : q = 0
      · subst h; simp [pyOr, pyTruthy, pyFloat, scalarCoerced]
      · simp [pyOr, pyTruthy, pyFloat, scalarCoerced, h]
    | str s =>
      have hs : s = "" := by simpa [scalarSafe] using hvs
      subst hs
      simp [pyOr, pyTruthy, pyFloat, scalarCoerced]
  refine ⟨hv, ?_⟩
  intro a b c d df ha hb hc hd
  simp only [compute_year, hv a ha, hv b hb, hv c hc, hv d hd]
  rfl

/-- Witness for C6 amended: with None, numeric, and empty-string scalars the
computation succeeds with the falsy inputs coerced to 0.0. -/
theorem compute_year_scalar_coercion_amended_witness :
    scalarSafe PyVal.none = true ∧ scalarSafe (PyVal.str "") = true ∧
    scalarSafe (PyVal.num 5) = true ∧
    compute_year PyVal.none (PyVal.num 5) Option.none (PyVal.str "") (PyVal.num 5) =
      .ok (mkYearRes 0 5 (normalize_hours_df Option.none) 0 5) :=
  ⟨by decide, by decide, by decide, by
    have h := compute_year_scalar_coercion_amended.2 PyVal.none (PyVal.num 5) (PyVal.str "")
      (PyVal.num 5) Option.none (by decide) (by decide) (by decide) (by decide)
    simpa [scalarCoerced] using h⟩

/-- C7: the import routine fails when sheet "N" is absent; for every
workbook whose sheet "N" is present but lacks required columns, it fails
with an error naming exactly the (sorted) missing columns — likewise for
any sheet read by `read_hours_sheet` — where the named set contains
precisely the required columns absent from the sheet; on the Scenario D
instance the error names `Coef_production`; and an absent sheet "N-1"
yields no data rather than an error. -/
theorem import_validates_sheets_and_columns :
    (∀ xls : Workbook, slookup xls "N" = Option.none →
        load_hours_from_excel xls = .error .sheetNRequired)
    ∧ (∀ (xls : Workbook) (df : Table), slookup xls "N" = some df →
        sortStrings (REQUIRED_COLS.filter (fun c => ! hasCol (stripColNames df) c)) ≠ [] →
        load_hours_from_excel xls = .error (.missingColumns "N"
          (sortStrings (REQUIRED_COLS.filter (fun c => ! hasCol (stripColNames df) c)))))
    ∧ (∀ (xls : Workbook) (sheet : String) (df : Table), slookup xls sheet = some df →
        sortStrings (REQUIRED_COLS.filter (fun c => ! hasCol (stripColNames df) c)) ≠ [] →
        read_hours_sheet xls sheet = .error (.missingColumns sheet
          (sortStrings (REQUIRED_COLS.filter (fun c => ! hasCol (stripColNames df) c)))))
    ∧ (∀ (df : Table) (c : String),
        c ∈ sortStrings (REQUIRED_COLS.filter (fun c2 => ! hasCol (stripColNames df) c2)) ↔
          c ∈ REQUIRED_COLS ∧ hasCol (stripColNames df) c = false)
    ∧ load_hours_from_excel [("N", [("Personne", ([] : List Cell)), ("Heures", [])])]
        = .error (.missingColumns "N" ["Coef_production"])
    ∧ (∀ xls : Workbook, slookup xls "N-1" = Option.none →
        read_hours_sheet xls "N-1" = .ok Option.none) := by
  have hsheet : ∀ (xls : Workbook) (sheet : String) (df : Table), slookup xls sheet = some df →
      sortStrings (REQUIRED_COLS.filter (fun c => ! hasCol (stripColNames df) c)) ≠ [] →
      read_hours_sheet xls sheet = .error (.missingColumns sheet
        (sortStrings (REQUIRED_COLS.filter (fun c => ! hasCol (stripColNames df) c)))) := by
    intro xls sheet df h hmiss
    have hne : ¬ ((sortStrings (REQUIRED_COLS.filter
        (fun c => ! hasCol (stripColNames df) c))).isEmpty = true) := by
      intro he
      exact hmiss (by simpa using he)
    simp only [read_hours_sheet, h, if_neg hne]
  refine ⟨?_, ?_, hsheet, ?_, by decide, ?_⟩
  · intro xls h
    simp only [load_hours_from_excel, read_hours_sheet, h]
    rfl
  · intro xls df h hmiss
    have hr := hsheet xls "N" df h hmiss
    simp only [load_hours_from_excel, hr]
    rfl
  · intro df c
    rw [mem_sortStrings, List.mem_filter]
    simp
  · intro xls h
    simp only [read_hours_sheet, h]

/-- Witness for C7: the empty workbook fails with the required-sheet error
and reading its "N-1" sheet reports no data; a workbook whose sheet "N"
lacks only the `Heures` column fails with an error naming exactly
`Heures`. -/
theorem import_validates_sheets_and_columns_witness :
    load_hours_from_excel [] = .error .sheetNRequired ∧
    load_hours_from_excel [("N", [("Personne", ([] : List Cell)), ("Coef_production", [])])]
      = .error (.missingColumns "N" ["Heures"]) ∧
    read_hours_sheet [] "N-1" = .ok Option.none :=
  ⟨import_validates_sheets_and_columns.1 [] rfl,
   import_validates_sheets_and_columns.2.1
     [("N", [("Personne", ([] : List Cell)), ("Coef_production", [])])]
     [("Personne", ([] : List Cell)), ("Coef_production", [])] (by decide) (by decide),
   import_validates_sheets_and_columns.2.2.2.2.2 [] rfl⟩

/-- C8: import is atomic with respect to session state — whenever
`load_hours_from_excel` fails, the button handler leaves both session hours
tables exactly as they were. -/
theorem failed_import_preserves_session_tables :
    ∀ (sess : Session) (xls : Workbook) (e : ImportError),
      load_hours_from_excel xls = .error e → on_load_excel_click sess xls = sess := by
  intro sess xls e h
  simp [on_load_excel_click, h]

/-- Witness for C8: a failing import of the empty workbook leaves a concrete
session unchanged. -/
theorem failed_import_preserves_session_tables_witness :
    on_load_excel_click ⟨[("Heures", [Cell.num 1])], [("Heures", [Cell.num 2])]⟩ [] =
      ⟨[("Heures", [Cell.num 1])], [("Heures", [Cell.num 2])]⟩ :=
  failed_import_preserves_session_tables _ [] .sheetNRequired (by decide)

/-- C9: `build_summary_payload` sets the include-prior-year flag to true iff
the caller requested it and a prior-year result was supplied; a missing
prior-year result silently yields flag false and no N-1 block; and the
year-N result stored in the payload is exactly the `YearRes` passed in. -/
theorem build_summary_payload_assembles_without_recompute :
    (∀ (today : String) (u : Bool) (ca achats th cr : ℚ) (res : YearRes)
        (ca1 achats1 th1 cr1 : Option ℚ) (res1 : Option YearRes),
        (build_summary_payload today u ca achats th cr res ca1 achats1 th1 cr1 res1).use_n1
          = (u && res1.isSome))
    ∧ (∀ (today : String) (u : Bool) (ca achats th cr : ℚ) (res : YearRes)
        (ca1 achats1 th1 cr1 : Option ℚ),
        (build_summary_payload today u ca achats th cr res ca1 achats1 th1 cr1
            Option.none).use_n1 = false ∧
        (build_summary_payload today u ca achats th cr res ca1 achats1 th1 cr1
            Option.none).yearPrev = Option.none)
    ∧ (∀ (today : String) (u : Bool) (ca achats th cr : ℚ) (res : YearRes)
        (ca1 achats1 th1 cr1 : Option ℚ) (res1 : Option YearRes),
        (build_summary_payload today u ca achats th cr res ca1 achats1 th1 cr1 res1).yearN.res
          = res) := by
  refine ⟨?_, ?_, ?_⟩ <;> intros <;> simp [build_summary_payload]

/-- Heap lookup below freshly appended objects is unchanged. -/
theorem heapGet_append_left (h : Heap) (t : List Table) (r : Nat) (hr : r < h.length) :
    heapGet (h ++ t) r = heapGet h r := by
  simp [heapGet, List.getD_eq_getElem?_getD, List.getElem?_append, hr]

/-- Overwriting the freshly appended object replaces only it. -/
theorem heap_set_fresh (h : Heap) (a b : Table) :
    heapSet (h ++ [a]) h.length b = h ++ [b] := by
  simp [heapSet, List.set_append]

/-- Reading the freshly appended object. -/
theorem heapGet_fresh (h : Heap) (a : Table) : heapGet (h ++ [a]) h.length = a := by
  simp [heapGet, List.getD_append_right]

/-- The heap after running the normalizer is the input heap plus one fresh
object holding the prepared table. -/
theorem normalize_onHeap_heap_shape (h : Heap) (r : Nat) :
    (normalize_hours_df_onHeap h r).1 =
      h ++ [addBillableCol (coerceCols (ensureRequiredCols
        (resolveHoursInput (some (heapGet h r)))))] := by
  simp only [normalize_hours_df_onHeap, heapGet_fresh, heap_set_fresh]

/-- C10: neither the normalizer nor `compute_year` mutates the hours table
passed to it — in the heap model of pandas objects, where every in-place
column write targets the object it is applied to and `df.copy()` allocates
a fresh object, the caller's table is identical before and after either
call (in particular it never gains a `Heures_facturables` column). -/
theorem normalize_and_compute_year_do_not_mutate_input :
    (∀ (h : Heap) (r : Nat), r < h.length →
        heapGet (normalize_hours_df_onHeap h r).1 r = heapGet h r)
    ∧ (∀ (h : Heap) (r : Nat) (ca achats taux coef : PyVal), r < h.length →
        heapGet (compute_year_onHeap h ca achats r taux coef).1 r = heapGet h r) := by
  have hn : ∀ (h : Heap) (r : Nat), r < h.length →
      heapGet (normalize_hours_df_onHeap h r).1 r = heapGet h r := by
    intro h r hr
    rw [normalize_onHeap_heap_shape]
    exact heapGet_append_left h _ r hr
  refine ⟨hn, ?_⟩
  intro h r ca achats taux coef hr
  unfold compute_year_onHeap
  split
  · exact hn h r hr
  · rfl
  · rfl
  · rfl
  · rfl

/-- Witness for C10: on a concrete one-object heap, both runs leave the
input table unchanged. -/
theorem normalize_and_compute_year_do_not_mutate_input_witness :
    heapGet (normalize_hours_df_onHeap [[("Heures", [Cell.num 1])]] 0).1 0 =
      heapGet [[("Heures", [Cell.num 1])]] 0 ∧
    heapGet (compute_year_onHeap [[("Heures", [Cell.num 1])]] (.num 1) (.num 2) 0
        (.num 3) (.num 4)).1 0 =
      heapGet [[("Heures", [Cell.num 1])]] 0 :=
  ⟨normalize_and_compute_year_do_not_mutate_input.1 _ 0 (by decide),
   normalize_and_compute_year_do_not_mutate_input.2 _ 0 _ _ _ _ (by decide)⟩
